import Mathlib

/-!
Shallow embedding of src/transactional_dict.py.

The Python module defines a class TransactionalDict with fields _original (a
reference to the caller's dict) and _overlay (a dict of pending changes), a
sentinel class Undefined used as the deletion marker inside the overlay, and a
context manager transaction(original_dict).

Modelling choices:
* Python dicts are insertion-ordered with unique keys; they are embedded as
  association lists (List (String x v)) where assignment replaces the value of
  an existing key in place and appends fresh keys at the end, matching Python
  dict semantics.
* Keys are Strings (the doctests use string keys); values are the closed type
  Val of ints, strings and nested dicts.
* Overlay entries are one of: the Undefined sentinel, a plain staged value, or
  a nested TransactionalDict wrapper — the inductive OverlayVal.
* Raised exceptions become Except values; Err distinguishes the two KeyError
  messages, TypeError, and AssertionError.
-/

set_option autoImplicit false

namespace TxDict

/-- Python values stored in the base dict or staged as plain overlay values:
ints, strings, or nested plain dicts (insertion-ordered association lists). -/
inductive Val where
  | int (n : Int)
  | str (s : String)
  | dict (entries : List (String × Val))

/-- Exceptions the module can raise. `keyDeleted k` is the
KeyError "Key k has been deleted in current transaction." raised by
__getitem__; `keyNotFound k` is the KeyError raised when k is missing
(base dict lookup, __delitem__, del on a plain dict); `typeError` is the
TypeError raised when subscripting a non-container or calling len on an
iterator; `assertionError` is the failed assert in transaction(). -/
inductive Err where
  | keyDeleted (k : String)
  | keyNotFound (k : String)
  | typeError
  | assertionError
deriving DecidableEq

/-- Python dict lookup `d.get(k)` / `d[k]` (unique keys, so first match). -/
def lookupA {α : Type} : List (String × α) → String → Option α
  | [], _ => none
  | (k', v) :: rest, k => if k = k' then some v else lookupA rest k

/-- Python dict assignment `d[k] = v`: replace the value of an existing key in
place (keeping its position), otherwise append the new pair at the end. -/
def insertA {α : Type} : List (String × α) → String → α → List (String × α)
  | [], k, v => [(k, v)]
  | (k', v') :: rest, k, v =>
    if k = k' then (k', v) :: rest else (k', v') :: insertA rest k v

/-- Removal of a present key (helper for `pyDel`). -/
def eraseA {α : Type} : List (String × α) → String → List (String × α)
  | [], _ => []
  | (k', v') :: rest, k => if k = k' then rest else (k', v') :: eraseA rest k

/-- Python `del d[k]` on a plain dict: raises KeyError when k is absent. -/
def pyDel {α : Type} (l : List (String × α)) (k : String) :
    Except Err (List (String × α)) :=
  if (lookupA l k).isSome then .ok (eraseA l k) else .error (.keyNotFound k)

mutual

/-- The class TransactionalDict: `_original` (the base dict the wrapper holds a
reference to) and `_overlay` (the dict of pending changes, initially empty). -/
inductive TransactionalDict where
  | mk (original : List (String × Val)) (overlay : List (String × OverlayVal))

/-- A value stored in the overlay dict: the Undefined sentinel class (deletion
marker), a plain staged Python value, or a nested TransactionalDict created by
read-through wrapping in __getitem__. -/
inductive OverlayVal where
  | undefined
  | plain (v : Val)
  | nested (t : TransactionalDict)

end

/-- Field access `self._original`. -/
def TransactionalDict.original : TransactionalDict → List (String × Val)
  | .mk o _ => o

/-- Field access `self._overlay`. -/
def TransactionalDict.overlay : TransactionalDict → List (String × OverlayVal)
  | .mk _ ov => ov

/-- The `item is Undefined` identity test used throughout the source. -/
def OverlayVal.isUndefined : OverlayVal → Bool
  | .undefined => true
  | _ => false

/-- __getitem__: if key is in the overlay, return the overlay entry, raising
the "deleted in current transaction" KeyError when it is the Undefined marker.
Otherwise read the base dict (KeyError when absent); a plain dict value is
wrapped in a fresh TransactionalDict (the source's isinstance check
`isinstance(item, dict) and not isinstance(item, TransactionalDict)` — base
values in this model are plain `Val`s, never wrappers, so Val.dict is exactly
the wrap case); the item read from the base is cached into the overlay, and the
item is returned together with the updated state. Error cases mutate nothing. -/
def TransactionalDict.getItem (t : TransactionalDict) (k : String) :
    Except Err (OverlayVal × TransactionalDict) :=
  match lookupA t.overlay k with
  | some item =>
    match item with
    | .undefined => .error (.keyDeleted k)
    | _ => .ok (item, t)
  | none =>
    match lookupA t.original k with
    | none => .error (.keyNotFound k)
    | some v =>
      let item : OverlayVal :=
        match v with
        | Val.dict entries => .nested (.mk entries [])
        | _ => .plain v
      .ok (item, .mk t.original (insertA t.overlay k item))

/-- __setitem__: `self._overlay[key] = value`, unconditionally. -/
def TransactionalDict.setItem (t : TransactionalDict) (k : String) (v : Val) :
    TransactionalDict :=
  .mk t.original (insertA t.overlay k (.plain v))

/-- __delitem__: a key present in the base dict gets the Undefined marker in
the overlay (whatever the overlay held before); a key present only in the
overlay is removed from the overlay; otherwise KeyError. -/
def TransactionalDict.delItem (t : TransactionalDict) (k : String) :
    Except Err TransactionalDict :=
  if (lookupA t.original k).isSome then
    .ok (.mk t.original (insertA t.overlay k .undefined))
  else if (lookupA t.overlay k).isSome then
    .ok (.mk t.original (eraseA t.overlay k))
  else
    .error (.keyNotFound k)

/-- __contains__: `(key not in overlay or overlay[key] is not Undefined) and
(key in original or key in overlay)`. -/
def TransactionalDict.containsKey (t : TransactionalDict) (k : String) : Bool :=
  (match lookupA t.overlay k with
   | some item => !item.isUndefined
   | none => true)
  && ((lookupA t.original k).isSome || (lookupA t.overlay k).isSome)

mutual

/-- commit(): fold every overlay entry into the base dict in overlay insertion
order — a nested wrapper is committed recursively and its (mutated) base stored
under the key, the Undefined marker deletes the key from the base
(`del self._original[key]`, a KeyError if absent), any other value is stored
directly. Then the overlay is cleared and the base is returned. An error
models the raised exception propagating out of the loop. -/
def TransactionalDict.commit : TransactionalDict →
    Except Err (List (String × Val) × TransactionalDict)
  | .mk orig ov =>
    match commitList orig ov with
    | .error e => .error e
    | .ok newOrig => .ok (newOrig, .mk newOrig [])

/-- The `for key, value in self._overlay.items()` loop of commit(), threading
the base dict through the iteration. -/
def commitList : List (String × Val) → List (String × OverlayVal) →
    Except Err (List (String × Val))
  | orig, [] => .ok orig
  | orig, (k, .nested sub) :: rest =>
    match sub.commit with
    | .error e => .error e
    | .ok (subBase, _) => commitList (insertA orig k (Val.dict subBase)) rest
  | orig, (k, .undefined) :: rest =>
    match pyDel orig k with
    | .error e => .error e
    | .ok orig' => commitList orig' rest
  | orig, (k, .plain v) :: rest => commitList (insertA orig k v) rest

end

/-- abort(): returns `self._original` untouched and clears the overlay. The
source also loops over the overlay calling abort() on every nested wrapper;
that recursion only clears the overlays of wrappers that are discarded together
with this overlay on the next line, so in this pure state model it has no
effect on the result. -/
def TransactionalDict.abort (t : TransactionalDict) :
    List (String × Val) × TransactionalDict :=
  (t.original, .mk t.original [])

/-- An entry of the dict returned by diff(): either an
`(old, new)` pair — `none` standing for the Undefined sentinel used by
`self._original.get(key, Undefined)` / `self._overlay.get(key, Undefined)` —
or a nested diff dict coming from a nested wrapper. -/
inductive DiffVal where
  | pair (old : Option Val) (new : Option Val)
  | sub (entries : List (String × DiffVal))

mutual

/-- diff(): one entry per overlay entry, in overlay insertion order. -/
def TransactionalDict.diff : TransactionalDict → List (String × DiffVal)
  | .mk orig ov => diffList orig ov

/-- The diff() loop. A nested wrapper contributes its recursive diff; any
other overlay entry contributes
`(self._original.get(key, Undefined), self._overlay.get(key, Undefined))` —
dict keys are unique, so the second lookup returns exactly the entry being
iterated, which is how it is rendered here; the Undefined default/marker is
`none`. -/
def diffList : List (String × Val) → List (String × OverlayVal) →
    List (String × DiffVal)
  | _, [] => []
  | orig, (k, .nested sub) :: rest =>
    (k, .sub sub.diff) :: diffList orig rest
  | orig, (k, .undefined) :: rest =>
    (k, .pair (lookupA orig k) none) :: diffList orig rest
  | orig, (k, .plain v) :: rest =>
    (k, .pair (lookupA orig k) (some v)) :: diffList orig rest

end

/-- The private __keys method: the set comprehension over
`chain(self._original.keys(), self._overlay.keys())` keeping keys whose
overlay entry (default None) `is not Undefined`; a Python set, so a Finset. -/
def TransactionalDict.keysSet (t : TransactionalDict) : Finset String :=
  (((t.original.map Prod.fst) ++ (t.overlay.map Prod.fst)).filter
    (fun k =>
      match lookupA t.overlay k with
      | some item => !item.isUndefined
      | none => true)).toFinset

/-- The object returned by __iter__: `iter(self.__keys())`, a Python set
iterator over the key set. -/
structure SetIterator where
  elems : Finset String

/-- Python `len(it)` applied to a set iterator: set iterators define no
__len__, so the call raises TypeError for every iterator. -/
def pyLenOfIterator (_it : SetIterator) : Except Err Nat :=
  .error .typeError

/-- __iter__: `iter(self.__keys())`. -/
def TransactionalDict.iterOp (t : TransactionalDict) : SetIterator :=
  ⟨t.keysSet⟩

/-- __len__: `return len(self.__iter__())` — len applied to the set iterator,
not to the key set. -/
def TransactionalDict.lenOp (t : TransactionalDict) : Except Err Nat :=
  pyLenOfIterator t.iterOp

/-! ## Client operation sequences

A client statement on a wrapper `d` is `d[p1][p2]...[pn][k]` (a read),
`d[p1]...[pn][k] = v`, or `del d[p1]...[pn][k]`: a path of subscripts followed
by one final get/set/delete. Each path subscript is a __getitem__ call on the
object so far; mutating the object it returns mutates the very object stored
in the enclosing overlay (Python aliasing), which this pure model renders by
writing the updated object back into that overlay slot — the slot holds
exactly the object __getitem__ returned. -/

/-- The final action of a statement. -/
inductive Action where
  | get (k : String)
  | set (k : String) (v : Val)
  | del (k : String)

/-- One client statement: subscript path, then the action. -/
structure Op where
  path : List String
  act : Action

/-- A get/set/delete applied directly to a plain Python dict (reached by
subscripting through a plain dict staged in an overlay). Reads do not mutate
plain dicts; missing keys raise KeyError. -/
def applyActionDict (m : List (String × Val)) :
    Action → List (String × Val) × Option Err
  | .get k =>
    match lookupA m k with
    | some _ => (m, none)
    | none => (m, some (.keyNotFound k))
  | .set k v => (insertA m k v, none)
  | .del k =>
    match pyDel m k with
    | .ok m' => (m', none)
    | .error e => (m, some e)

/-- Subscript navigation inside a plain Python dict: `m[p]` must itself be a
dict to subscript further (TypeError on a scalar, KeyError when absent). The
returned dict is the state at the point the statement finished or raised. -/
def applyAtDict (m : List (String × Val)) :
    List String → Action → List (String × Val) × Option Err
  | [], a => applyActionDict m a
  | p :: ps, a =>
    match lookupA m p with
    | some (Val.dict sub) =>
      match applyAtDict sub ps a with
      | (sub', e?) => (insertA m p (.dict sub'), e?)
    | some _ => (m, some .typeError)
    | none => (m, some (.keyNotFound p))

/-- A get/set/delete applied directly to a TransactionalDict. The returned
state is the wrapper's state when the statement finished or raised (the
source's error paths mutate nothing before raising). -/
def applyAction (t : TxDict.TransactionalDict) :
    Action → TxDict.TransactionalDict × Option Err
  | .get k =>
    match t.getItem k with
    | .ok (_, t') => (t', none)
    | .error e => (t, some e)
  | .set k v => (t.setItem k v, none)
  | .del k =>
    match t.delItem k with
    | .ok t' => (t', none)
    | .error e => (t, some e)

/-- A statement applied to a TransactionalDict through its subscript path.
Each path component is a __getitem__ (so it caches into the overlay); the
object it returns is either a nested wrapper, a plain dict staged earlier by a
set, or a scalar (TypeError). Mutation of the returned object is modelled by
writing it back into the overlay slot that holds it. `OverlayVal.undefined` is
never returned by a successful __getitem__, so that branch is unreachable. -/
def applyAt (t : TxDict.TransactionalDict) :
    List String → Action → TxDict.TransactionalDict × Option Err
  | [], a => applyAction t a
  | p :: ps, a =>
    match t.getItem p with
    | .error e => (t, some e)
    | .ok (item, t') =>
      match item with
      | .nested sub =>
        match applyAt sub ps a with
        | (sub', e?) =>
          (.mk t'.original (TxDict.insertA t'.overlay p (.nested sub')), e?)
      | .plain (Val.dict m) =>
        match applyAtDict m ps a with
        | (m', e?) =>
          (.mk t'.original (TxDict.insertA t'.overlay p (.plain (.dict m'))), e?)
      | .plain _ => (t', some .typeError)
      | .undefined => (t', some .typeError)

/-- Run a sequence of statements; an uncaught exception stops the sequence,
leaving the state as it was at the raise point. -/
def run (t : TxDict.TransactionalDict) :
    List Op → TxDict.TransactionalDict × Option Err
  | [] => (t, none)
  | op :: ops =>
    match applyAt t op.path op.act with
    | (t', none) => run t' ops
    | (t', some e) => (t', some e)

/-- The argument handed to transaction(): a plain dict, a TransactionalDict
instance (which is not a dict — TransactionalDict does not subclass dict), or
any other non-dict object. -/
inductive BaseArg where
  | dict (d : List (String × Val))
  | wrapper (t : TxDict.TransactionalDict)
  | other

/-- The transaction() context manager, with the with-block body given as a
statement sequence: `assert isinstance(original_dict, dict)` first (an
AssertionError for a non-dict, including a TransactionalDict, before the
wrapper is created); then the wrapper is created and the body runs; on normal
completion commit() runs; on any exception from the body (or from commit)
abort() runs and the original exception is re-raised unchanged. -/
def transaction (arg : BaseArg) (body : List Op) :
    Except Err (List (String × Val)) :=
  match arg with
  | .dict d =>
    let t : TxDict.TransactionalDict := .mk d []
    match run t body with
    | (t', none) =>
      match t'.commit with
      | .ok (b, _) => .ok b
      | .error e =>
        match t'.abort with
        | _ => .error e
    | (t', some e) =>
      match t'.abort with
      | _ => .error e
  | .wrapper _ => .error .assertionError
  | .other => .error .assertionError

/-! ## Lemmas -/

@[simp]
theorem original_mk (o : List (String × Val)) (ov : List (String × OverlayVal)) :
    (TransactionalDict.mk o ov).original = o := rfl

@[simp]
theorem overlay_mk (o : List (String × Val)) (ov : List (String × OverlayVal)) :
    (TransactionalDict.mk o ov).overlay = ov := rfl

theorem lookupA_insertA_self {α : Type} (l : List (String × α)) (k : String)
    (v : α) : lookupA (insertA l k v) k = some v := by
  induction l with
  | nil => simp [insertA, lookupA]
  | cons hd tl ih =>
    obtain ⟨k', v'⟩ := hd
    by_cases hk : k = k' <;> simp [insertA, lookupA, hk, ih]

theorem getItem_original {t : TransactionalDict} {k : String} {it : OverlayVal}
    {t' : TransactionalDict} (h : t.getItem k = .ok (it, t')) :
    t'.original = t.original := by
  unfold TransactionalDict.getItem at h
  split at h
  · split at h
    · cases h
    · cases h; rfl
  · split at h
    · cases h
    · cases h; rfl

theorem applyAction_original (t : TransactionalDict) (a : Action) :
    (applyAction t a).1.original = t.original := by
  cases a with
  | get k =>
    simp only [applyAction]
    cases hg : t.getItem k with
    | ok p =>
      obtain ⟨it, t'⟩ := p
      simpa using getItem_original hg
    | error e => simp
  | set k v => rfl
  | del k =>
    simp only [applyAction]
    cases hd : t.delItem k with
    | ok t' =>
      unfold TransactionalDict.delItem at hd
      split at hd
      · cases hd; rfl
      · split at hd
        · cases hd; rfl
        · cases hd
    | error e => simp

theorem applyAt_original (t : TransactionalDict) (path : List String)
    (a : Action) : (applyAt t path a).1.original = t.original := by
  cases path with
  | nil => exact applyAction_original t a
  | cons p ps =>
    simp only [applyAt]
    cases hg : t.getItem p with
    | error e => simp
    | ok pr =>
      obtain ⟨item, t'⟩ := pr
      have ht' := getItem_original hg
      cases item with
      | nested sub => simpa using ht'
      | plain v => cases v <;> simpa using ht'
      | undefined => simpa using ht'

theorem run_original (t : TransactionalDict) (ops : List Op) :
    (run t ops).1.original = t.original := by
  induction ops generalizing t with
  | nil => rfl
  | cons op ops ih =>
    simp only [run]
    have hap := applyAt_original t op.path op.act
    cases h : applyAt t op.path op.act with
    | mk t' e? =>
      rw [h] at hap
      cases e? with
      | none => simpa [hap] using ih t'
      | some e => simpa using hap

/-! ## Claims -/

/-- C1: for every base B and every wrapper T freshly created over B, running
any finite sequence of get/set/delete statements (including statements
addressed through nested wrappers reached by subscripting) leaves B unchanged
while neither commit nor abort has run, and abort() afterwards returns exactly
B, key for key, as it was when T was created. -/
theorem base_unchanged_until_commit_and_abort_restores
    (B : List (String × Val)) (ops : List Op) :
    (run (.mk B []) ops).1.original = B ∧
    ((run (.mk B []) ops).1.abort).1 = B := by
  have h := run_original (.mk B []) ops
  exact ⟨h, h⟩

/-- C2: get(k) case analysis — an Undefined marker in the overlay raises the
"deleted in current transaction" KeyError; any other overlay entry is returned
unchanged with no state change; a key only in the base is returned wrapped in
a fresh nested wrapper when the base value is a plain dict and directly when
it is not, and in both successful base-read cases the returned item is cached
into the overlay; a key in neither dict raises the "not found" KeyError. -/
theorem getItem_case_analysis (t : TransactionalDict) (k : String) :
    (lookupA t.overlay k = some .undefined →
      t.getItem k = .error (.keyDeleted k)) ∧
    (∀ item, lookupA t.overlay k = some item → item ≠ .undefined →
      t.getItem k = .ok (item, t)) ∧
    (∀ m, lookupA t.overlay k = none →
      lookupA t.original k = some (Val.dict m) →
      t.getItem k = .ok (.nested (.mk m []),
        .mk t.original (insertA t.overlay k (.nested (.mk m []))))) ∧
    (∀ v, lookupA t.overlay k = none → lookupA t.original k = some v →
      (∀ m, v ≠ Val.dict m) →
      t.getItem k = .ok (.plain v,
        .mk t.original (insertA t.overlay k (.plain v)))) ∧
    (lookupA t.overlay k = none → lookupA t.original k = none →
      t.getItem k = .error (.keyNotFound k)) := by
  refine ⟨?_, ?_, ?_, ?_, ?_⟩
  · intro h; simp [TransactionalDict.getItem, h]
  · intro item h hne
    cases item with
    | undefined => exact absurd rfl hne
    | plain v => simp [TransactionalDict.getItem, h]
    | nested s => simp [TransactionalDict.getItem, h]
  · intro m h1 h2; simp [TransactionalDict.getItem, h1, h2]
  · intro v h1 h2 h3
    cases v with
    | dict m => exact absurd rfl (h3 m)
    | int n => simp [TransactionalDict.getItem, h1, h2]
    | str s => simp [TransactionalDict.getItem, h1, h2]
  · intro h1 h2; simp [TransactionalDict.getItem, h1, h2]

/-- Witness for C2: the wrap-and-cache case on the base {"n": {"a": 1}}. -/
theorem getItem_case_analysis_witness :
    (TransactionalDict.mk [("n", Val.dict [("a", Val.int 1)])] []).getItem "n"
      = .ok (.nested (.mk [("a", Val.int 1)] []),
          .mk [("n", Val.dict [("a", Val.int 1)])]
            [("n", .nested (.mk [("a", Val.int 1)] []))]) :=
  (getItem_case_analysis
      (.mk [("n", Val.dict [("a", Val.int 1)])] []) "n").2.2.1
    [("a", Val.int 1)] rfl rfl

/-- C3: delete(k) case analysis — a key present in the base gets the Undefined
marker stored in the overlay regardless of what the overlay previously held;
a key present only in the overlay has its overlay entry removed entirely;
a key in neither dict raises the "not found" KeyError. -/
theorem delItem_case_analysis (t : TransactionalDict) (k : String) :
    (∀ v, lookupA t.original k = some v →
      t.delItem k = .ok (.mk t.original (insertA t.overlay k .undefined))) ∧
    (∀ item, lookupA t.original k = none → lookupA t.overlay k = some item →
      t.delItem k = .ok (.mk t.original (eraseA t.overlay k))) ∧
    (lookupA t.original k = none → lookupA t.overlay k = none →
      t.delItem k = .error (.keyNotFound k)) := by
  refine ⟨?_, ?_, ?_⟩
  · intro v h; simp [TransactionalDict.delItem, h]
  · intro item h1 h2; simp [TransactionalDict.delItem, h1, h2]
  · intro h1 h2; simp [TransactionalDict.delItem, h1, h2]

/-- Witness for C3: deleting a base-resident key with a pending overlay write
replaces the overlay entry by the Undefined marker, and deleting an
overlay-only key removes the entry. -/
theorem delItem_case_analysis_witness :
    (TransactionalDict.mk [("a", Val.int 1)]
        [("a", .plain (Val.int 2))]).delItem "a"
      = .ok (.mk [("a", Val.int 1)] [("a", .undefined)]) ∧
    (TransactionalDict.mk [] [("b", .plain (Val.int 2))]).delItem "b"
      = .ok (.mk [] []) :=
  ⟨(delItem_case_analysis
        (.mk [("a", Val.int 1)] [("a", .plain (Val.int 2))]) "a").1
      (Val.int 1) rfl,
   (delItem_case_analysis (.mk [] [("b", .plain (Val.int 2))]) "b").2.1
      (.plain (Val.int 2)) rfl rfl⟩

/-- C5: the spec's literal example — on the base {"x": 1}, after set x := "y"
and set z := 3 the diff is exactly the dict
{"x": (1, "y"), "z": (Undefined, 3)} (none renders the did-not-exist
sentinel), and commit() then returns the base mutated to {"x": "y", "z": 3}
with the overlay cleared. -/
theorem diff_and_commit_literal_example :
    (((TransactionalDict.mk [("x", Val.int 1)] []).setItem "x"
        (Val.str "y")).setItem "z" (Val.int 3)).diff
      = [("x", .pair (some (Val.int 1)) (some (Val.str "y"))),
         ("z", .pair none (some (Val.int 3)))] ∧
    (((TransactionalDict.mk [("x", Val.int 1)] []).setItem "x"
        (Val.str "y")).setItem "z" (Val.int 3)).commit
      = .ok ([("x", Val.str "y"), ("z", Val.int 3)],
          .mk [("x", Val.str "y"), ("z", Val.int 3)] []) :=
  ⟨rfl, rfl⟩

/-- C6: commit() is idempotent — whenever a commit completes, returning base b
and leaving state t', the overlay of t' is empty, t' holds b as its base, and
an immediate second commit() is a no-op returning the same b and the same
state. -/
theorem commit_idempotent (t : TransactionalDict) (b : List (String × Val))
    (t' : TransactionalDict) (h : t.commit = .ok (b, t')) :
    t'.commit = .ok (b, t') ∧ t'.overlay = [] ∧ t'.original = b := by
  obtain ⟨orig, ov⟩ := t
  unfold TransactionalDict.commit at h
  split at h
  · cases h
  · cases h
    refine ⟨?_, rfl, rfl⟩
    simp [TransactionalDict.commit, commitList]

/-- Witness for C6: committing a staged write, then the second commit. -/
theorem commit_idempotent_witness :
    (TransactionalDict.mk [("x", Val.int 2)] []).commit
      = .ok ([("x", Val.int 2)], .mk [("x", Val.int 2)] []) ∧
    (TransactionalDict.mk [("x", Val.int 2)] []).overlay = [] ∧
    (TransactionalDict.mk [("x", Val.int 2)] []).original = [("x", Val.int 2)] :=
  commit_idempotent (.mk [] [("x", .plain (Val.int 2))]) [("x", Val.int 2)]
    (.mk [("x", Val.int 2)] []) rfl

/-- C7 (code bug): __len__ is `len(self.__iter__())`, and __iter__ returns a
set iterator, which defines no __len__ — so len() raises TypeError on every
wrapper state instead of returning the size of the key set. -/
theorem lenOp_always_raises_typeError (t : TransactionalDict) :
    t.lenOp = .error .typeError := rfl

/-- C8: after a successful delete(k) followed by set(k, v), get(k) succeeds
and returns v — set unconditionally replaced the Undefined marker, so no
"deleted in current transaction" error is raised. -/
theorem delete_set_get_returns_new_value (t : TransactionalDict) (k : String)
    (v : Val) (t₁ : TransactionalDict) (_h : t.delItem k = .ok t₁) :
    (t₁.setItem k v).getItem k = .ok (.plain v, t₁.setItem k v) := by
  simp [TransactionalDict.getItem, TransactionalDict.setItem,
    lookupA_insertA_self]

/-- Witness for C8: delete "a" from a wrapper over {"a": 1}, set it to 5,
read it back. -/
theorem delete_set_get_returns_new_value_witness :
    ((TransactionalDict.mk [("a", Val.int 1)]
        [("a", .undefined)]).setItem "a" (Val.int 5)).getItem "a"
      = .ok (.plain (Val.int 5),
          (TransactionalDict.mk [("a", Val.int 1)]
            [("a", .undefined)]).setItem "a" (Val.int 5)) :=
  delete_set_get_returns_new_value (.mk [("a", Val.int 1)] []) "a" (Val.int 5)
    (.mk [("a", Val.int 1)] [("a", .undefined)]) rfl

theorem lookupA_diffList_insertA_plain (orig : List (String × Val))
    (k : String) (v : Val) (ov : List (String × OverlayVal)) :
    lookupA (diffList orig (insertA ov k (.plain v))) k
      = some (.pair (lookupA orig k) (some v)) := by
  induction ov with
  | nil => simp [insertA, diffList, lookupA]
  | cons hd tl ih =>
    obtain ⟨k', x⟩ := hd
    by_cases hk : k = k' <;>
      cases x <;> simp [insertA, diffList, lookupA, hk, ih]

theorem lookupA_diffList_insertA_nested (orig : List (String × Val))
    (k : String) (s : TransactionalDict) (ov : List (String × OverlayVal)) :
    lookupA (diffList orig (insertA ov k (.nested s))) k
      = some (.sub s.diff) := by
  induction ov with
  | nil => simp [insertA, diffList, lookupA]
  | cons hd tl ih =>
    obtain ⟨k', x⟩ := hd
    by_cases hk : k = k' <;>
      cases x <;> simp [insertA, diffList, lookupA, hk, ih]

/-- C9: diff() reports keys that were only read — reading a key with a
non-dict base value v (not yet touched in the overlay) caches it, and diff()
then maps the key to the no-op pair (v, v); reading a key whose base value is
a plain dict wraps it, and with no subsequent edit diff() maps the key to an
empty nested diff. -/
theorem diff_reports_read_only_keys (t : TransactionalDict) (k : String)
    (hov : lookupA t.overlay k = none) :
    (∀ v, lookupA t.original k = some v → (∀ m, v ≠ Val.dict m) →
      t.getItem k = .ok (.plain v,
        .mk t.original (insertA t.overlay k (.plain v))) ∧
      lookupA (TransactionalDict.mk t.original
          (insertA t.overlay k (.plain v))).diff k
        = some (.pair (some v) (some v))) ∧
    (∀ m, lookupA t.original k = some (Val.dict m) →
      t.getItem k = .ok (.nested (.mk m []),
        .mk t.original (insertA t.overlay k (.nested (.mk m [])))) ∧
      lookupA (TransactionalDict.mk t.original
          (insertA t.overlay k (.nested (.mk m [])))).diff k
        = some (.sub [])) := by
  constructor
  · intro v hor hnd
    refine ⟨(getItem_case_analysis t k).2.2.2.1 v hov hor hnd, ?_⟩
    simp [TransactionalDict.diff, lookupA_diffList_insertA_plain, hor]
  · intro m hor
    refine ⟨(getItem_case_analysis t k).2.2.1 m hov hor, ?_⟩
    simp [TransactionalDict.diff, lookupA_diffList_insertA_nested, diffList]

/-- Witness for C9: reading the scalar under "a" on the base {"a": 1} puts
the no-op pair (1, 1) into diff(); reading the dict under "n" on the base
{"n": {"b": 2}} puts an empty nested diff into diff(). -/
theorem diff_reports_read_only_keys_witness :
    ((TransactionalDict.mk [("a", Val.int 1)] []).getItem "a"
      = .ok (.plain (Val.int 1),
          .mk [("a", Val.int 1)] [("a", .plain (Val.int 1))]) ∧
     lookupA (TransactionalDict.mk [("a", Val.int 1)]
         [("a", .plain (Val.int 1))]).diff "a"
       = some (.pair (some (Val.int 1)) (some (Val.int 1)))) ∧
    ((TransactionalDict.mk [("n", Val.dict [("b", Val.int 2)])] []).getItem "n"
      = .ok (.nested (.mk [("b", Val.int 2)] []),
          .mk [("n", Val.dict [("b", Val.int 2)])]
            [("n", .nested (.mk [("b", Val.int 2)] []))]) ∧
     lookupA (TransactionalDict.mk [("n", Val.dict [("b", Val.int 2)])]
         [("n", .nested (.mk [("b", Val.int 2)] []))]).diff "n"
       = some (.sub [])) :=
  ⟨(diff_reports_read_only_keys (.mk [("a", Val.int 1)] []) "a" rfl).1
      (Val.int 1) rfl (fun _ hm => Val.noConfusion hm),
   (diff_reports_read_only_keys
      (.mk [("n", Val.dict [("b", Val.int 2)])] []) "n" rfl).2
      [("b", Val.int 2)] rfl⟩

/-- C10: set(k, m) with a plain dict m stages m itself — a following get(k)
returns it as a plain value, not wrapped in a nested transactional wrapper,
and diff() maps k to a flat (old, m) pair rather than a nested diff; only
dicts read from the base get wrapped. -/
theorem set_mapping_not_wrapped (t : TransactionalDict) (k : String)
    (m : List (String × Val)) :
    (t.setItem k (.dict m)).getItem k
      = .ok (.plain (.dict m), t.setItem k (.dict m)) ∧
    lookupA (t.setItem k (.dict m)).diff k
      = some (.pair (lookupA t.original k) (some (.dict m))) := by
  constructor
  · simp [TransactionalDict.getItem, TransactionalDict.setItem,
      lookupA_insertA_self]
  · simp [TransactionalDict.setItem, TransactionalDict.diff,
      lookupA_diffList_insertA_plain]

/-- C4: the transaction() helper — a body that completes normally is followed
by commit(), whose result is returned; a body that raises e is followed by
abort() (after which the base is exactly the dict supplied) and e is re-raised
unchanged; a TransactionalDict (which is not a dict) or any other non-dict
argument fails the assert with AssertionError before the body runs. -/
theorem transaction_scoped_behavior :
    (∀ d body t' b t'', run (.mk d []) body = (t', none) →
      t'.commit = .ok (b, t'') →
      transaction (.dict d) body = .ok b) ∧
    (∀ d body t' e, run (.mk d []) body = (t', some e) →
      transaction (.dict d) body = .error e ∧ (t'.abort).1 = d) ∧
    (∀ t body, transaction (.wrapper t) body = .error .assertionError) ∧
    (∀ body, transaction .other body = .error .assertionError) := by
  refine ⟨?_, ?_, fun _ _ => rfl, fun _ => rfl⟩
  · intro d body t' b t'' hrun hcommit
    simp [transaction, hrun, hcommit]
  · intro d body t' e hrun
    have horig := run_original (.mk d []) body
    rw [hrun] at horig
    exact ⟨by simp [transaction, hrun], horig⟩

/-- Witness for C4: a body that stages one write commits to the mutated base;
a body that reads a missing key re-raises the KeyError and aborts. -/
theorem transaction_scoped_behavior_witness :
    transaction (.dict [("a", Val.int 1)]) [⟨[], .set "a" (Val.int 2)⟩]
      = .ok [("a", Val.int 2)] ∧
    (transaction (.dict [("a", Val.int 1)])
        [⟨[], .get "zzz"⟩] = .error (.keyNotFound "zzz") ∧
      ((TransactionalDict.mk [("a", Val.int 1)] []).abort).1
        = [("a", Val.int 1)]) :=
  ⟨transaction_scoped_behavior.1 [("a", Val.int 1)]
      [⟨[], .set "a" (Val.int 2)⟩]
      (.mk [("a", Val.int 1)] [("a", .plain (Val.int 2))])
      [("a", Val.int 2)] (.mk [("a", Val.int 2)] []) rfl rfl,
   transaction_scoped_behavior.2.1 [("a", Val.int 1)]
      [⟨[], .get "zzz"⟩] (.mk [("a", Val.int 1)] []) (.keyNotFound "zzz") rfl⟩

end TxDict
